import Mathlib

/-!
# Joystick firmware (`ultimo.c`): control loop and button interrupt handler

A shallow embedding of `src/ultimo.c`.

* The file-scope variables (`leds_pwm_ativados`, `estado_led_verde`, `antes`,
  `estilo_borda`) together with the observable effects of the SDK calls (the
  level last written to each PWM pin, the lines sent to `printf`) form the
  record `Estado`.
* `uint8_t`, `uint16_t` and `uint64_t` values are natural numbers, reduced
  modulo `2 ^ 8`, `2 ^ 16`, `2 ^ 64` wherever the C code stores or subtracts
  them.
* The time read by `to_us_since_boot (get_absolute_time ())` is an argument of
  the handler (`agora`); the two `adc_read ()` results are arguments of the
  loop body (`x_val`, `y_val`).
-/

set_option linter.unusedVariables false

namespace Ultimo

/-! ## Constants (`#define`s) -/

/-- Pin of the red LED. -/
def LED_VERMELHO : Nat := 13

/-- Pin of the blue LED. -/
def LED_AZUL : Nat := 12

/-- Pin of the green LED. -/
def LED_VERDE : Nat := 11

/-- Pin of the joystick button. -/
def BOTAO_JOY : Nat := 22

/-- Pin of button A. -/
def BOTAO_A : Nat := 5

/-- Falling-edge bit of the event mask (`GPIO_IRQ_EDGE_FALL` of the SDK). -/
def GPIO_IRQ_EDGE_FALL : Nat := 4

/-- Rising-edge bit of the event mask (`GPIO_IRQ_EDGE_RISE` of the SDK). -/
def GPIO_IRQ_EDGE_RISE : Nat := 8

/-! ## State -/

/-- File-scope variables of `ultimo.c` and the observable effects of the
peripheral calls. -/
structure Estado where
  /-- Variable `leds_pwm_ativados`. -/
  leds_pwm_ativados : Bool
  /-- Variable `estado_led_verde`. -/
  estado_led_verde : Bool
  /-- Variable `antes` (`uint64_t`): time of the last accepted interrupt. -/
  antes : Nat
  /-- Variable `estilo_borda` (`uint8_t`). -/
  estilo_borda : Nat
  /-- Level last written to the PWM channel of `LED_VERDE`. -/
  nivel_verde : Nat
  /-- Level last written to the PWM channel of `LED_AZUL`. -/
  nivel_azul : Nat
  /-- Level last written to the PWM channel of `LED_VERMELHO`. -/
  nivel_vermelho : Nat
  /-- Lines written by `printf`, oldest first. -/
  saida : List String
  deriving DecidableEq, Repr

/-- State when the main loop starts: the initialisers of the file-scope
variables, and level 0 on the three channels (`configurar_pwm` ends with
`pwm_set_chan_level (slice, channel, 0)`). -/
def inicial : Estado :=
  { leds_pwm_ativados := false
    estado_led_verde := false
    antes := 0
    estilo_borda := 0
    nivel_verde := 0
    nivel_azul := 0
    nivel_vermelho := 0
    saida := [] }

/-! ## SDK calls -/

/-- Effect of `pwm_set_gpio_level (gpio, level)`: the level, taken as a
`uint16_t`, is recorded for the pin. -/
def pwm_set_gpio_level (s : Estado) (gpio : Nat) (level : Nat) : Estado :=
  if gpio = LED_VERDE then { s with nivel_verde := level % 2 ^ 16 }
  else if gpio = LED_AZUL then { s with nivel_azul := level % 2 ^ 16 }
  else if gpio = LED_VERMELHO then { s with nivel_vermelho := level % 2 ^ 16 }
  else s

/-- Effect of `printf`: one more line of output. -/
def printf (s : Estado) (linha : String) : Estado :=
  { s with saida := s.saida ++ [linha] }

/-- Subtraction of two `uint64_t` values. -/
def sub_u64 (a b : Nat) : Nat := (a % 2 ^ 64 + 2 ^ 64 - b % 2 ^ 64) % 2 ^ 64

/-! ## Interrupt handler -/

/-- The guard `(agora - antes) < 200000` of `manipulador_irq_gpio` is false:
the call gets past the debounce window. -/
def aceito (s : Estado) (agora : Nat) : Bool :=
  !decide (sub_u64 agora s.antes < 200000)

/-- Function `manipulador_irq_gpio (gpio, eventos)`, called when the clock
reads `agora`. -/
def manipulador_irq_gpio (s : Estado) (gpio : Nat) (eventos : Nat) (agora : Nat) :
    Estado :=
  if sub_u64 agora s.antes < 200000 then s
  else
    let s := { s with antes := agora }
    if gpio = BOTAO_JOY then
      let s := printf s "Botão do joystick pressionado.\n"
      let s := { s with estado_led_verde := !s.estado_led_verde }
      let s := printf s
        ("Estado do LED verde: " ++
          (if s.estado_led_verde then "Ligado" else "Desligado") ++ "\n")
      let s := pwm_set_gpio_level s LED_VERDE (if s.estado_led_verde then 4095 else 0)
      let s := { s with estilo_borda := ((s.estilo_borda + 1) % 2) % 2 ^ 8 }
      printf s
        ("Estilo da borda: " ++
          (if s.estilo_borda = 0 then "Simples" else "Dupla") ++ "\n")
    else if gpio = BOTAO_A then
      let s := printf s "Botão A pressionado.\n"
      let s := { s with leds_pwm_ativados := !s.leds_pwm_ativados }
      printf s
        ("PWM dos LEDs: " ++
          (if s.leds_pwm_ativados then "Ativado" else "Desativado") ++ "\n")
    else s

/-- One interrupt: pin, event mask and clock reading. -/
structure Chamada where
  /-- Pin that raised the interrupt. -/
  gpio : Nat
  /-- Event mask. -/
  eventos : Nat
  /-- Clock reading in microseconds. -/
  agora : Nat
  deriving DecidableEq, Repr

/-- The handler run on a sequence of interrupts, oldest first. -/
def executar (s : Estado) (cs : List Chamada) : Estado :=
  cs.foldl (fun st c => manipulador_irq_gpio st c.gpio c.eventos c.agora) s

/-! ## LED intensities -/

/-- Function `definir_padrao_led (x_val, y_val)`. -/
def definir_padrao_led (s : Estado) (x_val y_val : Nat) : Estado :=
  if s.leds_pwm_ativados then
    let s := pwm_set_gpio_level s LED_AZUL (Int.natAbs ((x_val : Int) - 2048) * 2)
    pwm_set_gpio_level s LED_VERMELHO (Int.natAbs ((y_val : Int) - 2048) * 2)
  else
    let s := pwm_set_gpio_level s LED_AZUL 0
    pwm_set_gpio_level s LED_VERMELHO 0

/-- The IntensityMapper as the specification words it: `(blue, red)` is
`(0, 0)` when disabled and `(|x_raw - 2048| * 2, |y_raw - 2048| * 2)` when
enabled. -/
def IntensityMapper_spec (enabled : Bool) (x_raw y_raw : Nat) : Int × Int :=
  if enabled then (|(x_raw : Int) - 2048| * 2, |(y_raw : Int) - 2048| * 2)
  else (0, 0)

/-! ## Main loop: marker position and drawing calls -/

/-- Local `x_pos` of `main`: `uint8_t x_pos = (y_val * 112) / 4095`. -/
def x_pos (y_val : Nat) : Nat := ((y_val * 112) / 4095) % 2 ^ 8

/-- Local `y_pos` of `main`: `uint8_t y_pos = (x_val * 56) / 4095`. -/
def y_pos (x_val : Nat) : Nat := ((x_val * 56) / 4095) % 2 ^ 8

/-- Arguments of one call `ssd1306_rect (&display, top, left, width, height,
value, fill)`. -/
structure Retangulo where
  /-- First row. -/
  top : Nat
  /-- First column. -/
  left : Nat
  /-- Number of columns. -/
  width : Nat
  /-- Number of rows. -/
  height : Nat
  /-- Pixel value. -/
  value : Bool
  /-- Filled or outline only. -/
  fill : Bool
  deriving DecidableEq, Repr

/-- The marker call of `main`:
`ssd1306_rect (&display, y_pos, x_pos, 10, 10, true, true)`. -/
def marcador (x_val y_val : Nat) : Retangulo :=
  { top := y_pos x_val, left := x_pos y_val, width := 10, height := 10,
    value := true, fill := true }

/-- Function `desenhar_borda`: the rectangle calls made for the given
`estilo_borda`. -/
def desenhar_borda (estilo_borda : Nat) : List Retangulo :=
  if estilo_borda = 0 then
    [{ top := 0, left := 0, width := 127, height := 63, value := true, fill := false }]
  else if estilo_borda = 1 then
    [{ top := 0, left := 0, width := 127, height := 63, value := true, fill := false },
     { top := 1, left := 1, width := 125, height := 61, value := true, fill := false }]
  else []

/-- Modelled from the spec: `ssd1306_rect` (the display library `inc/ssd1306.c`
is not part of the sources at hand). The drawing surface's
`drawRectangle (x, y, w, h, filled)` covers `w` columns starting at `left` and
`h` rows starting at `top`; a filled rectangle sets every pixel of that block,
an outline only those on its four edges. The result tells whether the pixel at
`(linha, coluna)` is set by the call. -/
def ssd1306_rect (r : Retangulo) (linha coluna : Nat) : Bool :=
  decide (r.top ≤ linha ∧ linha < r.top + r.height ∧
          r.left ≤ coluna ∧ coluna < r.left + r.width) &&
  (r.fill ||
    decide (linha = r.top ∨ linha + 1 = r.top + r.height ∨
            coluna = r.left ∨ coluna + 1 = r.left + r.width))

/-- The pixel at `(linha, coluna)` belongs to the border drawn for the given style. -/
def pixel_borda (estilo_borda : Nat) (linha coluna : Nat) : Bool :=
  (desenhar_borda estilo_borda).any (fun r => ssd1306_rect r linha coluna)

/-- The marker keeps to the drawable interior: every pixel it sets is on the
128x64 surface (rows 0..63, columns 0..127) and is not a border pixel. -/
def MarcadorNoInterior (estilo_borda : Nat) (x_val y_val : Nat) : Prop :=
  ∀ linha coluna : Nat, ssd1306_rect (marcador x_val y_val) linha coluna = true →
    linha ≤ 63 ∧ coluna ≤ 127 ∧ pixel_borda estilo_borda linha coluna = false

/-- State after a first accepted joystick press at `t0` from power-on. -/
def apos_primeiro (t0 : Nat) : Estado :=
  { inicial with
    estado_led_verde := true
    antes := t0
    estilo_borda := 1
    nivel_verde := 4095
    saida := ["Botão do joystick pressionado.\n", "Estado do LED verde: Ligado\n",
              "Estilo da borda: Dupla\n"] }

/-- State after a further accepted joystick press 250 ms after the first. -/
def apos_terceiro (t0 : Nat) : Estado :=
  { inicial with
    estado_led_verde := false
    antes := t0 + 250000
    estilo_borda := 0
    nivel_verde := 0
    saida := ["Botão do joystick pressionado.\n", "Estado do LED verde: Ligado\n",
              "Estilo da borda: Dupla\n", "Botão do joystick pressionado.\n",
              "Estado do LED verde: Desligado\n", "Estilo da borda: Simples\n"] }

/-- Lockstep of the green LED and the border style: `estilo_borda` is 0 or 1,
`estado_led_verde` holds exactly when `estilo_borda = 1`, and the green level is
4095 when `estado_led_verde` holds and 0 otherwise. -/
def Lockstep (s : Estado) : Prop :=
  (s.estilo_borda = 0 ∨ s.estilo_borda = 1) ∧
  (s.estado_led_verde = true ↔ s.estilo_borda = 1) ∧
  s.nivel_verde = (if s.estado_led_verde then 4095 else 0)

/-! ## Coordinate mapping -/

/-- Claim C1: for readings in [0, 4095] the marker is drawn with horizontal
position `floor (y_raw * 112 / 4095)` and vertical position
`floor (x_raw * 56 / 4095)` (axes swapped), the 8-bit storage losing nothing;
`(y_raw, x_raw) = (4095, 0)` gives `(x_pos, y_pos) = (112, 0)`. -/
theorem coordinate_mapper_formula (x_raw y_raw : Nat) (hx : x_raw ≤ 4095)
    (hy : y_raw ≤ 4095) :
    x_pos y_raw = y_raw * 112 / 4095 ∧ y_pos x_raw = x_raw * 56 / 4095 ∧
    marcador x_raw y_raw =
      { top := x_raw * 56 / 4095, left := y_raw * 112 / 4095, width := 10,
        height := 10, value := true, fill := true } ∧
    x_pos 4095 = 112 ∧ y_pos 0 = 0 := by
  have h1 : x_pos y_raw = y_raw * 112 / 4095 := by
    have hb : y_raw * 112 / 4095 ≤ 112 := by omega
    unfold x_pos
    exact Nat.mod_eq_of_lt (by omega)
  have h2 : y_pos x_raw = x_raw * 56 / 4095 := by
    have hb : x_raw * 56 / 4095 ≤ 56 := by omega
    unfold y_pos
    exact Nat.mod_eq_of_lt (by omega)
  refine ⟨h1, h2, ?_, by decide, by decide⟩
  simp only [marcador, h1, h2]

/-- Witness of C1 at the sample `(x_raw, y_raw) = (1000, 3000)`. -/
theorem coordinate_mapper_formula_witness :
    x_pos 3000 = 3000 * 112 / 4095 ∧ y_pos 1000 = 1000 * 56 / 4095 ∧
    marcador 1000 3000 =
      { top := 1000 * 56 / 4095, left := 3000 * 112 / 4095, width := 10,
        height := 10, value := true, fill := true } ∧
    x_pos 4095 = 112 ∧ y_pos 0 = 0 :=
  coordinate_mapper_formula 1000 3000 (by decide) (by decide)

/-- Claim C7: for readings in [0, 4095], `x_pos` lies in [0, 112] and `y_pos`
in [0, 56]; the maxima are reached exactly at 4095 and `(0, 0)` maps to
`(0, 0)`. -/
theorem coordinate_mapper_bounds (x_raw y_raw : Nat) (hx : x_raw ≤ 4095)
    (hy : y_raw ≤ 4095) :
    x_pos y_raw ≤ 112 ∧ y_pos x_raw ≤ 56 ∧
    x_pos 4095 = 112 ∧ y_pos 4095 = 56 ∧ x_pos 0 = 0 ∧ y_pos 0 = 0 := by
  refine ⟨?_, ?_, by decide, by decide, by decide, by decide⟩
  · have hb : y_raw * 112 / 4095 ≤ 112 := by omega
    unfold x_pos
    exact le_trans (Nat.mod_le _ _) hb
  · have hb : x_raw * 56 / 4095 ≤ 56 := by omega
    unfold y_pos
    exact le_trans (Nat.mod_le _ _) hb

/-- Witness of C7 at the sample `(x_raw, y_raw) = (4000, 17)`. -/
theorem coordinate_mapper_bounds_witness :
    x_pos 17 ≤ 112 ∧ y_pos 4000 ≤ 56 ∧
    x_pos 4095 = 112 ∧ y_pos 4095 = 56 ∧ x_pos 0 = 0 ∧ y_pos 0 = 0 :=
  coordinate_mapper_bounds 4000 17 (by decide) (by decide)

/-! ## Intensity mapping -/

/-- Blue level written by `definir_padrao_led`. -/
theorem definir_padrao_led_azul (s : Estado) (x_val y_val : Nat) :
    (definir_padrao_led s x_val y_val).nivel_azul =
      if s.leds_pwm_ativados then (Int.natAbs ((x_val : Int) - 2048) * 2) % 2 ^ 16
      else 0 := by
  cases h : s.leds_pwm_ativados <;>
    simp [definir_padrao_led, pwm_set_gpio_level, LED_AZUL, LED_VERMELHO, LED_VERDE, h]

/-- Red level written by `definir_padrao_led`. -/
theorem definir_padrao_led_vermelho (s : Estado) (x_val y_val : Nat) :
    (definir_padrao_led s x_val y_val).nivel_vermelho =
      if s.leds_pwm_ativados then (Int.natAbs ((y_val : Int) - 2048) * 2) % 2 ^ 16
      else 0 := by
  cases h : s.leds_pwm_ativados <;>
    simp [definir_padrao_led, pwm_set_gpio_level, LED_AZUL, LED_VERMELHO, LED_VERDE, h]

/-- For a 12-bit reading the `uint16_t` level parameter holds the product
exactly. -/
theorem nivel_sem_perda (v : Nat) (hv : v ≤ 4095) :
    (Int.natAbs ((v : Int) - 2048) * 2) % 2 ^ 16 = Int.natAbs ((v : Int) - 2048) * 2 := by
  apply Nat.mod_eq_of_lt
  omega

/-- Claim C2: for readings in [0, 4095], `definir_padrao_led` writes
`(blue, red) = (0, 0)` when `leds_pwm_ativados` is false and
`blue = |x_raw - 2048| * 2`, `red = |y_raw - 2048| * 2` when it is true, as the
reference definition says; enabled with `x_raw = 2048` gives blue 0 and enabled
with `x_raw = 0` gives blue 4096. -/
theorem intensity_mapper_refines (s : Estado) (x_raw y_raw : Nat) (hx : x_raw ≤ 4095)
    (hy : y_raw ≤ 4095) :
    (((definir_padrao_led s x_raw y_raw).nivel_azul : Int),
      ((definir_padrao_led s x_raw y_raw).nivel_vermelho : Int)) =
      IntensityMapper_spec s.leds_pwm_ativados x_raw y_raw ∧
    (s.leds_pwm_ativados = false →
      (definir_padrao_led s x_raw y_raw).nivel_azul = 0 ∧
      (definir_padrao_led s x_raw y_raw).nivel_vermelho = 0) ∧
    (s.leds_pwm_ativados = true →
      ((definir_padrao_led s x_raw y_raw).nivel_azul : Int) = |(x_raw : Int) - 2048| * 2 ∧
      ((definir_padrao_led s x_raw y_raw).nivel_vermelho : Int) = |(y_raw : Int) - 2048| * 2 ∧
      (definir_padrao_led s 2048 y_raw).nivel_azul = 0 ∧
      (definir_padrao_led s 0 y_raw).nivel_azul = 4096) := by
  have ha := definir_padrao_led_azul s x_raw y_raw
  have hv := definir_padrao_led_vermelho s x_raw y_raw
  rw [nivel_sem_perda x_raw hx] at ha
  rw [nivel_sem_perda y_raw hy] at hv
  have ex : ((Int.natAbs ((x_raw : Int) - 2048) * 2 : Nat) : Int) = |(x_raw : Int) - 2048| * 2 := by
    rw [Int.abs_eq_natAbs]
    push_cast
    rfl
  have ey : ((Int.natAbs ((y_raw : Int) - 2048) * 2 : Nat) : Int) = |(y_raw : Int) - 2048| * 2 := by
    rw [Int.abs_eq_natAbs]
    push_cast
    rfl
  have h0 := definir_padrao_led_azul s 2048 y_raw
  have h1 := definir_padrao_led_azul s 0 y_raw
  cases h : s.leds_pwm_ativados
  · simp [h] at ha hv
    simp [IntensityMapper_spec, ha, hv]
  · simp only [h, if_true] at ha hv h0 h1
    refine ⟨?_, by simp, fun _ => ⟨?_, ?_, ?_, ?_⟩⟩
    · simp only [IntensityMapper_spec, if_true, ha, hv, ex, ey]
    · rw [ha, ex]
    · rw [hv, ey]
    · rw [h0]
      decide
    · rw [h1]
      decide

/-- Witness of C2: PWM enabled, readings `(0, 4095)`. -/
theorem intensity_mapper_refines_witness :
    (((definir_padrao_led { inicial with leds_pwm_ativados := true } 0 4095).nivel_azul : Int),
      ((definir_padrao_led { inicial with leds_pwm_ativados := true } 0 4095).nivel_vermelho : Int)) =
      IntensityMapper_spec true 0 4095 ∧
    (definir_padrao_led { inicial with leds_pwm_ativados := true } 0 4095).nivel_azul = 4096 ∧
    (definir_padrao_led { inicial with leds_pwm_ativados := true } 0 4095).nivel_vermelho = 4094 :=
  ⟨(intensity_mapper_refines { inicial with leds_pwm_ativados := true } 0 4095
      (by decide) (by decide)).1, by decide, by decide⟩

/-- Counterexample to C5: with the PWM LEDs enabled and `x_raw = 0`, the blue
level written is 4096, above the wrap value 4095. -/
theorem duty_domain_counterexample :
    (definir_padrao_led { inicial with leds_pwm_ativados := true } 0 2048).nivel_azul = 4096 ∧
    ¬ (definir_padrao_led { inicial with leds_pwm_ativados := true } 0 2048).nivel_azul ≤ 4095 := by
  decide

/-- Claim C5, amended: for readings in [0, 4095] both levels written by
`definir_padrao_led` lie in [0, 4096]; a level stays within [0, 4095] exactly
when the flag is off or the corresponding reading is not 0. -/
theorem duty_domain_amended (s : Estado) (x_raw y_raw : Nat) (hx : x_raw ≤ 4095)
    (hy : y_raw ≤ 4095) :
    (definir_padrao_led s x_raw y_raw).nivel_azul ≤ 4096 ∧
    (definir_padrao_led s x_raw y_raw).nivel_vermelho ≤ 4096 ∧
    ((definir_padrao_led s x_raw y_raw).nivel_azul ≤ 4095 ↔
      ¬ (s.leds_pwm_ativados = true ∧ x_raw = 0)) ∧
    ((definir_padrao_led s x_raw y_raw).nivel_vermelho ≤ 4095 ↔
      ¬ (s.leds_pwm_ativados = true ∧ y_raw = 0)) := by
  have ha := definir_padrao_led_azul s x_raw y_raw
  have hv := definir_padrao_led_vermelho s x_raw y_raw
  rw [nivel_sem_perda x_raw hx] at ha
  rw [nivel_sem_perda y_raw hy] at hv
  cases h : s.leds_pwm_ativados
  · simp [h] at ha hv
    simp [ha, hv]
  · simp only [h, if_true] at ha hv
    rw [ha, hv]
    refine ⟨by omega, by omega, ?_, ?_⟩
    · simp only [true_and]
      omega
    · simp only [true_and]
      omega

/-- Witness of C5 (amended): PWM enabled, readings `(1, 4095)`. -/
theorem duty_domain_amended_witness :
    (definir_padrao_led { inicial with leds_pwm_ativados := true } 1 4095).nivel_azul ≤ 4096 ∧
    (definir_padrao_led { inicial with leds_pwm_ativados := true } 1 4095).nivel_vermelho ≤ 4096 ∧
    ((definir_padrao_led { inicial with leds_pwm_ativados := true } 1 4095).nivel_azul ≤ 4095 ↔
      ¬ (({ inicial with leds_pwm_ativados := true } : Estado).leds_pwm_ativados = true ∧ 1 = 0)) ∧
    ((definir_padrao_led { inicial with leds_pwm_ativados := true } 1 4095).nivel_vermelho ≤ 4095 ↔
      ¬ (({ inicial with leds_pwm_ativados := true } : Estado).leds_pwm_ativados = true ∧ 4095 = 0)) :=
  duty_domain_amended { inicial with leds_pwm_ativados := true } 1 4095 (by decide) (by decide)

/-! ## Interrupt handler: case analysis -/

/-- With a monotonic 64-bit clock the `uint64_t` difference is the plain
difference. -/
theorem sub_u64_of_le (a b : Nat) (hb : b ≤ a) (ha : a < 2 ^ 64) : sub_u64 a b = a - b := by
  unfold sub_u64
  omega

/-- Inside the debounce window the handler returns at once. -/
theorem manipulador_rejeita (s : Estado) (gpio eventos agora : Nat)
    (h : sub_u64 agora s.antes < 200000) : manipulador_irq_gpio s gpio eventos agora = s := by
  simp [manipulador_irq_gpio, h]

/-- Joystick-button branch of the handler. -/
theorem manipulador_joy (s : Estado) (eventos agora : Nat)
    (h : ¬ sub_u64 agora s.antes < 200000) :
    manipulador_irq_gpio s BOTAO_JOY eventos agora =
      { leds_pwm_ativados := s.leds_pwm_ativados
        estado_led_verde := !s.estado_led_verde
        antes := agora
        estilo_borda := (s.estilo_borda + 1) % 2
        nivel_verde := if s.estado_led_verde then 0 else 4095
        nivel_azul := s.nivel_azul
        nivel_vermelho := s.nivel_vermelho
        saida := s.saida ++
          ["Botão do joystick pressionado.\n",
           "Estado do LED verde: " ++
             (if s.estado_led_verde then "Desligado" else "Ligado") ++ "\n",
           "Estilo da borda: " ++
             (if (s.estilo_borda + 1) % 2 = 0 then "Simples" else "Dupla") ++ "\n"] } := by
  have hm : (s.estilo_borda + 1) % 2 % 256 = (s.estilo_borda + 1) % 2 := by omega
  have hl : (s.estilo_borda + 1) % 2 < 256 := by omega
  cases hv : s.estado_led_verde <;>
    simp [manipulador_irq_gpio, h, printf, pwm_set_gpio_level, hm, hl, hv]

/-- Button-A branch of the handler. -/
theorem manipulador_a (s : Estado) (eventos agora : Nat)
    (h : ¬ sub_u64 agora s.antes < 200000) :
    manipulador_irq_gpio s BOTAO_A eventos agora =
      { s with
        leds_pwm_ativados := !s.leds_pwm_ativados
        antes := agora
        saida := s.saida ++
          ["Botão A pressionado.\n",
           "PWM dos LEDs: " ++
             (if s.leds_pwm_ativados then "Desativado" else "Ativado") ++ "\n"] } := by
  cases hv : s.leds_pwm_ativados <;>
    simp [manipulador_irq_gpio, h, printf, BOTAO_A, BOTAO_JOY, hv]

/-- Any other pin past the debounce window: only `antes` is written. -/
theorem manipulador_outro (s : Estado) (gpio eventos agora : Nat)
    (hj : gpio ≠ BOTAO_JOY) (ha : gpio ≠ BOTAO_A)
    (h : ¬ sub_u64 agora s.antes < 200000) :
    manipulador_irq_gpio s gpio eventos agora = { s with antes := agora } := by
  simp [manipulador_irq_gpio, h, hj, ha]

/-- The handler past the debounce window always stores the clock reading. -/
theorem manipulador_aceita_antes (s : Estado) (gpio eventos agora : Nat)
    (h : ¬ sub_u64 agora s.antes < 200000) :
    (manipulador_irq_gpio s gpio eventos agora).antes = agora := by
  by_cases hj : gpio = BOTAO_JOY
  · rw [hj, manipulador_joy s eventos agora h]
  · by_cases ha : gpio = BOTAO_A
    · rw [ha, manipulador_a s eventos agora h]
    · rw [manipulador_outro s gpio eventos agora hj ha h]

/-! ## Debounce gate -/

/-- Claim C3: for a call from either button at a time `t` not before the last
accepted time, the event is discarded (state, output included, unchanged) when
`t - antes < 200000`, and accepted with `antes` becoming `t` when
`t - antes ≥ 200000` (200000 itself included); after an accepted press at `t`, a
press of either button at `t1` with `t1 - t < 200000` changes nothing. -/
theorem debounce_gate (s : Estado) (gpio eventos t : Nat)
    (hg : gpio = BOTAO_JOY ∨ gpio = BOTAO_A) (ht : s.antes ≤ t) (hw : t < 2 ^ 64) :
    (t - s.antes < 200000 → manipulador_irq_gpio s gpio eventos t = s) ∧
    (200000 ≤ t - s.antes →
      aceito s t = true ∧
      (manipulador_irq_gpio s gpio eventos t).antes = t ∧
      (manipulador_irq_gpio s gpio eventos t).saida ≠ s.saida ∧
      (gpio = BOTAO_JOY →
        (manipulador_irq_gpio s gpio eventos t).estado_led_verde = !s.estado_led_verde) ∧
      (gpio = BOTAO_A →
        (manipulador_irq_gpio s gpio eventos t).leds_pwm_ativados = !s.leds_pwm_ativados) ∧
      ∀ gpio1 eventos1 t1 : Nat, (gpio1 = BOTAO_JOY ∨ gpio1 = BOTAO_A) → t ≤ t1 →
        t1 < 2 ^ 64 → t1 - t < 200000 →
        manipulador_irq_gpio (manipulador_irq_gpio s gpio eventos t) gpio1 eventos1 t1 =
          manipulador_irq_gpio s gpio eventos t) := by
  have hs := sub_u64_of_le t s.antes ht hw
  constructor
  · intro h
    exact manipulador_rejeita s gpio eventos t (by rw [hs]; exact h)
  · intro h
    have hn : ¬ sub_u64 t s.antes < 200000 := by rw [hs]; omega
    have hantes := manipulador_aceita_antes s gpio eventos t hn
    refine ⟨by simp [aceito, hn], hantes, ?_, ?_, ?_, ?_⟩
    · rcases hg with hg | hg
      · rw [hg, manipulador_joy s eventos t hn]
        simp
      · rw [hg, manipulador_a s eventos t hn]
        simp
    · intro hj
      rw [hj, manipulador_joy s eventos t hn]
    · intro ha
      rw [ha, manipulador_a s eventos t hn]
    · intro gpio1 eventos1 t1 _ h1 hw1 hd
      apply manipulador_rejeita
      rw [hantes, sub_u64_of_le t1 t h1 hw1]
      exact hd

/-- Witness of C3: button A at `t = 200000` from the power-on state. -/
theorem debounce_gate_witness :
    (200000 - inicial.antes < 200000 →
      manipulador_irq_gpio inicial BOTAO_A GPIO_IRQ_EDGE_FALL 200000 = inicial) ∧
    (200000 ≤ 200000 - inicial.antes →
      aceito inicial 200000 = true ∧
      (manipulador_irq_gpio inicial BOTAO_A GPIO_IRQ_EDGE_FALL 200000).antes = 200000 ∧
      (manipulador_irq_gpio inicial BOTAO_A GPIO_IRQ_EDGE_FALL 200000).saida ≠ inicial.saida ∧
      (BOTAO_A = BOTAO_JOY →
        (manipulador_irq_gpio inicial BOTAO_A GPIO_IRQ_EDGE_FALL 200000).estado_led_verde =
          !inicial.estado_led_verde) ∧
      (BOTAO_A = BOTAO_A →
        (manipulador_irq_gpio inicial BOTAO_A GPIO_IRQ_EDGE_FALL 200000).leds_pwm_ativados =
          !inicial.leds_pwm_ativados) ∧
      ∀ gpio1 eventos1 t1 : Nat, (gpio1 = BOTAO_JOY ∨ gpio1 = BOTAO_A) → 200000 ≤ t1 →
        t1 < 2 ^ 64 → t1 - 200000 < 200000 →
        manipulador_irq_gpio (manipulador_irq_gpio inicial BOTAO_A GPIO_IRQ_EDGE_FALL 200000)
            gpio1 eventos1 t1 =
          manipulador_irq_gpio inicial BOTAO_A GPIO_IRQ_EDGE_FALL 200000) :=
  debounce_gate inicial BOTAO_A GPIO_IRQ_EDGE_FALL 200000 (Or.inr rfl) (by decide) (by decide)

/-! ## End-to-end scenario -/

/-- Counterexample to C4: from the power-on state a joystick-button event at
`t = 0` is discarded (`antes` starts at 0, so `0 - 0 < 200000`), the LED stays
off and the style stays 0; the whole scenario 0 ms, 100 ms, 250 ms ends with the
green LED on and the double border. -/
theorem scenario_counterexample :
    manipulador_irq_gpio inicial BOTAO_JOY GPIO_IRQ_EDGE_FALL 0 = inicial ∧
    (manipulador_irq_gpio inicial BOTAO_JOY GPIO_IRQ_EDGE_FALL 0).estado_led_verde = false ∧
    (manipulador_irq_gpio inicial BOTAO_JOY GPIO_IRQ_EDGE_FALL 0).estilo_borda = 0 ∧
    (executar inicial
      [⟨BOTAO_JOY, GPIO_IRQ_EDGE_FALL, 0⟩, ⟨BOTAO_JOY, GPIO_IRQ_EDGE_FALL, 100000⟩,
       ⟨BOTAO_JOY, GPIO_IRQ_EDGE_FALL, 250000⟩]).estado_led_verde = true ∧
    (executar inicial
      [⟨BOTAO_JOY, GPIO_IRQ_EDGE_FALL, 0⟩, ⟨BOTAO_JOY, GPIO_IRQ_EDGE_FALL, 100000⟩,
       ⟨BOTAO_JOY, GPIO_IRQ_EDGE_FALL, 250000⟩]).estilo_borda = 1 := by
  decide

/-- Running the handler on a non-empty sequence. -/
theorem executar_cons (s : Estado) (c : Chamada) (cs : List Chamada) :
    executar s (c :: cs) = executar (manipulador_irq_gpio s c.gpio c.eventos c.agora) cs :=
  rfl

/-- Running the handler on no interrupt. -/
theorem executar_nil (s : Estado) : executar s [] = s :=
  rfl

/-- First step of the scenario: a joystick press at `t0 ≥ 200000` from power-on. -/
theorem cenario_passo1 (t0 : Nat) (h0 : 200000 ≤ t0) (hw : t0 < 2 ^ 64) :
    manipulador_irq_gpio inicial BOTAO_JOY GPIO_IRQ_EDGE_FALL t0 = apos_primeiro t0 := by
  have a1 : ¬ sub_u64 t0 inicial.antes < 200000 := by
    rw [sub_u64_of_le t0 inicial.antes (Nat.zero_le _) hw]
    show ¬ t0 - 0 < 200000
    omega
  rw [manipulador_joy inicial GPIO_IRQ_EDGE_FALL t0 a1]
  rfl

/-- Second step of the scenario: a joystick press 100 ms after the first. -/
theorem cenario_passo2 (t0 : Nat) (hw : t0 + 100000 < 2 ^ 64) :
    manipulador_irq_gpio (apos_primeiro t0) BOTAO_JOY GPIO_IRQ_EDGE_FALL (t0 + 100000) =
      apos_primeiro t0 := by
  apply manipulador_rejeita
  have ha : (apos_primeiro t0).antes = t0 := rfl
  rw [ha, sub_u64_of_le (t0 + 100000) t0 (Nat.le_add_right _ _) hw]
  omega

/-- Third step of the scenario: a joystick press 250 ms after the first. -/
theorem cenario_passo3 (t0 : Nat) (hw : t0 + 250000 < 2 ^ 64) :
    manipulador_irq_gpio (apos_primeiro t0) BOTAO_JOY GPIO_IRQ_EDGE_FALL (t0 + 250000) =
      apos_terceiro t0 := by
  have ha : (apos_primeiro t0).antes = t0 := rfl
  have a3 : ¬ sub_u64 (t0 + 250000) (apos_primeiro t0).antes < 200000 := by
    rw [ha, sub_u64_of_le (t0 + 250000) t0 (Nat.le_add_right _ _) hw]
    omega
  rw [manipulador_joy (apos_primeiro t0) GPIO_IRQ_EDGE_FALL (t0 + 250000) a3]
  simp only [apos_primeiro, apos_terceiro, inicial]
  rfl

/-- Claim C4, amended: from the power-on state, a joystick-button event at a
time `t0` at least 200 ms after boot is accepted and leaves the green LED on
(level 4095), the style Double and three diagnostic lines; a second one 100 ms
later is rejected with no change; a third one 250 ms after the first is accepted
and leaves the green LED off (level 0) and the style Simple. -/
theorem scenario_amended (t0 : Nat) (h0 : 200000 ≤ t0) (hw : t0 + 250000 < 2 ^ 64) :
    aceito inicial t0 = true ∧
    executar inicial [⟨BOTAO_JOY, GPIO_IRQ_EDGE_FALL, t0⟩] =
      { inicial with
        estado_led_verde := true
        antes := t0
        estilo_borda := 1
        nivel_verde := 4095
        saida := ["Botão do joystick pressionado.\n", "Estado do LED verde: Ligado\n",
                  "Estilo da borda: Dupla\n"] } ∧
    executar inicial
        [⟨BOTAO_JOY, GPIO_IRQ_EDGE_FALL, t0⟩, ⟨BOTAO_JOY, GPIO_IRQ_EDGE_FALL, t0 + 100000⟩] =
      executar inicial [⟨BOTAO_JOY, GPIO_IRQ_EDGE_FALL, t0⟩] ∧
    executar inicial
        [⟨BOTAO_JOY, GPIO_IRQ_EDGE_FALL, t0⟩, ⟨BOTAO_JOY, GPIO_IRQ_EDGE_FALL, t0 + 100000⟩,
         ⟨BOTAO_JOY, GPIO_IRQ_EDGE_FALL, t0 + 250000⟩] =
      { inicial with
        estado_led_verde := false
        antes := t0 + 250000
        estilo_borda := 0
        nivel_verde := 0
        saida := ["Botão do joystick pressionado.\n", "Estado do LED verde: Ligado\n",
                  "Estilo da borda: Dupla\n", "Botão do joystick pressionado.\n",
                  "Estado do LED verde: Desligado\n", "Estilo da borda: Simples\n"] } := by
  have h1 := cenario_passo1 t0 h0 (by omega)
  have h2 := cenario_passo2 t0 (by omega)
  have h3 := cenario_passo3 t0 hw
  have ha : aceito inicial t0 = true := by
    have e : sub_u64 t0 inicial.antes = t0 - 0 :=
      sub_u64_of_le t0 inicial.antes (Nat.zero_le _) (by omega)
    unfold aceito
    rw [e]
    simp only [Nat.sub_zero, Bool.not_eq_true', decide_eq_false_iff_not]
    omega
  have e1 : executar inicial [⟨BOTAO_JOY, GPIO_IRQ_EDGE_FALL, t0⟩] = apos_primeiro t0 := by
    rw [executar_cons, executar_nil]
    exact h1
  have e2 : executar inicial
      [⟨BOTAO_JOY, GPIO_IRQ_EDGE_FALL, t0⟩, ⟨BOTAO_JOY, GPIO_IRQ_EDGE_FALL, t0 + 100000⟩] =
      apos_primeiro t0 := by
    rw [executar_cons, executar_cons, executar_nil]
    exact (congrArg (fun st => manipulador_irq_gpio st BOTAO_JOY GPIO_IRQ_EDGE_FALL
      (t0 + 100000)) h1).trans h2
  have e3 : executar inicial
      [⟨BOTAO_JOY, GPIO_IRQ_EDGE_FALL, t0⟩, ⟨BOTAO_JOY, GPIO_IRQ_EDGE_FALL, t0 + 100000⟩,
       ⟨BOTAO_JOY, GPIO_IRQ_EDGE_FALL, t0 + 250000⟩] = apos_terceiro t0 := by
    rw [executar_cons, executar_cons, executar_cons, executar_nil]
    exact (congrArg (fun st => manipulador_irq_gpio st BOTAO_JOY GPIO_IRQ_EDGE_FALL
      (t0 + 250000)) ((congrArg (fun st => manipulador_irq_gpio st BOTAO_JOY
        GPIO_IRQ_EDGE_FALL (t0 + 100000)) h1).trans h2)).trans h3
  exact ⟨ha, e1, e2.trans e1.symm, e3⟩

/-- Witness of C4 (amended): first press one second after boot. -/
theorem scenario_amended_witness :
    200000 ≤ 1000000 ∧
    (executar inicial
        [⟨BOTAO_JOY, GPIO_IRQ_EDGE_FALL, 1000000⟩,
         ⟨BOTAO_JOY, GPIO_IRQ_EDGE_FALL, 1000000 + 100000⟩,
         ⟨BOTAO_JOY, GPIO_IRQ_EDGE_FALL, 1000000 + 250000⟩]).estado_led_verde = false ∧
    (executar inicial
        [⟨BOTAO_JOY, GPIO_IRQ_EDGE_FALL, 1000000⟩,
         ⟨BOTAO_JOY, GPIO_IRQ_EDGE_FALL, 1000000 + 100000⟩,
         ⟨BOTAO_JOY, GPIO_IRQ_EDGE_FALL, 1000000 + 250000⟩]).estilo_borda = 0 :=
  ⟨by decide,
   congrArg Estado.estado_led_verde (scenario_amended 1000000 (by decide) (by norm_num)).2.2.2,
   congrArg Estado.estilo_borda (scenario_amended 1000000 (by decide) (by norm_num)).2.2.2⟩

/-! ## Frame conditions of the mode flags -/

/-- Claim C8: `estilo_borda` changes if and only if the call is an accepted
joystick-button event, and then becomes `(old + 1) mod 2` (0 to 1, 1 to 0); it
never changes on a button-A event. `leds_pwm_ativados` changes if and only if
the call is an accepted button-A event, and is then negated; it never changes on
a joystick-button event. -/
theorem mode_flags_frame (s : Estado) (gpio eventos agora : Nat) :
    ((manipulador_irq_gpio s gpio eventos agora).estilo_borda ≠ s.estilo_borda ↔
      (gpio = BOTAO_JOY ∧ aceito s agora = true)) ∧
    ((gpio = BOTAO_JOY ∧ aceito s agora = true) →
      (manipulador_irq_gpio s gpio eventos agora).estilo_borda = (s.estilo_borda + 1) % 2 ∧
      (s.estilo_borda = 0 → (manipulador_irq_gpio s gpio eventos agora).estilo_borda = 1) ∧
      (s.estilo_borda = 1 → (manipulador_irq_gpio s gpio eventos agora).estilo_borda = 0)) ∧
    (gpio = BOTAO_A →
      (manipulador_irq_gpio s gpio eventos agora).estilo_borda = s.estilo_borda) ∧
    ((manipulador_irq_gpio s gpio eventos agora).leds_pwm_ativados ≠ s.leds_pwm_ativados ↔
      (gpio = BOTAO_A ∧ aceito s agora = true)) ∧
    ((gpio = BOTAO_A ∧ aceito s agora = true) →
      (manipulador_irq_gpio s gpio eventos agora).leds_pwm_ativados =
        !s.leds_pwm_ativados) ∧
    (gpio = BOTAO_JOY →
      (manipulador_irq_gpio s gpio eventos agora).leds_pwm_ativados =
        s.leds_pwm_ativados) := by
  have hne : BOTAO_A ≠ BOTAO_JOY := by decide
  by_cases h : sub_u64 agora s.antes < 200000
  · have hr := manipulador_rejeita s gpio eventos agora h
    have hac : aceito s agora = false := by simp [aceito, h]
    rw [hr]
    simp [hac]
  · have hac : aceito s agora = true := by simp [aceito, h]
    by_cases hj : gpio = BOTAO_JOY
    · subst hj
      rw [manipulador_joy s eventos agora h]
      have hm : (s.estilo_borda + 1) % 2 ≠ s.estilo_borda := by omega
      refine ⟨?_, ?_, ?_, ?_, ?_, ?_⟩
      · simp [hac, hm]
      · intro _
        refine ⟨rfl, ?_, ?_⟩
        · intro h0
          simp [h0]
        · intro h1
          simp [h1]
      · intro hc
        exact absurd hc.symm hne
      · simp [hne.symm]
      · intro hc
        exact absurd hc.1.symm hne
      · intro _
        rfl
    · by_cases ha : gpio = BOTAO_A
      · subst ha
        rw [manipulador_a s eventos agora h]
        refine ⟨?_, ?_, ?_, ?_, ?_, ?_⟩
        · simp [hne]
        · intro hc
          exact absurd hc.1 hne
        · intro _
          rfl
        · simp [hac]
        · intro _
          rfl
        · intro hc
          exact absurd hc hne
      · rw [manipulador_outro s gpio eventos agora hj ha h]
        simp [hj, ha]

/-! ## Unknown events -/

/-- Counterexample to C9: a falling-edge call for pin 7 at `t = 300000` from
power-on moves the debounce clock from 0 to 300000, and a rising-edge call for
the joystick-button pin at the same time toggles the green LED and the border
style and prints three lines. -/
theorem unknown_event_counterexample :
    (manipulador_irq_gpio inicial 7 GPIO_IRQ_EDGE_FALL 300000).antes = 300000 ∧
    manipulador_irq_gpio inicial 7 GPIO_IRQ_EDGE_FALL 300000 ≠ inicial ∧
    (manipulador_irq_gpio inicial BOTAO_JOY GPIO_IRQ_EDGE_RISE 300000).estado_led_verde = true ∧
    (manipulador_irq_gpio inicial BOTAO_JOY GPIO_IRQ_EDGE_RISE 300000).estilo_borda = 1 ∧
    (manipulador_irq_gpio inicial BOTAO_JOY GPIO_IRQ_EDGE_RISE 300000).saida.length = 3 ∧
    manipulador_irq_gpio inicial BOTAO_JOY GPIO_IRQ_EDGE_RISE 300000 ≠ inicial := by
  decide

/-- Claim C9, amended: a call whose pin is neither the joystick button (22) nor
button A (5) leaves `estilo_borda`, `estado_led_verde`, `leds_pwm_ativados`, the
PWM levels and the output unchanged, whatever its event mask; the debounce clock
`antes` is unchanged inside the 200 ms window and becomes the call's time
outside it. -/
theorem unknown_event_amended (s : Estado) (gpio eventos agora : Nat)
    (hj : gpio ≠ BOTAO_JOY) (ha : gpio ≠ BOTAO_A) :
    manipulador_irq_gpio s gpio eventos agora =
      { s with antes := if aceito s agora = true then agora else s.antes } := by
  by_cases h : sub_u64 agora s.antes < 200000
  · have hac : aceito s agora = false := by simp [aceito, h]
    rw [manipulador_rejeita s gpio eventos agora h, hac]
    rfl
  · have hac : aceito s agora = true := by simp [aceito, h]
    rw [manipulador_outro s gpio eventos agora hj ha h, hac]
    rfl

/-- Witness of C9 (amended): pin 7 at `t = 300000` from power-on. -/
theorem unknown_event_amended_witness :
    (7 ≠ BOTAO_JOY ∧ 7 ≠ BOTAO_A) ∧
    manipulador_irq_gpio inicial 7 GPIO_IRQ_EDGE_FALL 300000 =
      { inicial with antes := if aceito inicial 300000 = true then 300000 else inicial.antes } :=
  ⟨by decide, unknown_event_amended inicial 7 GPIO_IRQ_EDGE_FALL 300000 (by decide) (by decide)⟩

/-! ## Green LED and border style in lockstep -/

/-- The lockstep relation between `estilo_borda`, `estado_led_verde` and the
green level is kept by every handler call. -/
theorem lockstep_passo (s : Estado) (gpio eventos agora : Nat)
    (h : Lockstep s) : Lockstep (manipulador_irq_gpio s gpio eventos agora) := by
  by_cases hg : sub_u64 agora s.antes < 200000
  · rw [manipulador_rejeita s gpio eventos agora hg]
    exact h
  · by_cases hj : gpio = BOTAO_JOY
    · subst hj
      rw [manipulador_joy s eventos agora hg]
      obtain ⟨h1, h2, h3⟩ := h
      cases hv : s.estado_led_verde
      · have h0 : s.estilo_borda = 0 := by
          rcases h1 with h1 | h1
          · exact h1
          · exact absurd (h2.mpr h1) (by simp [hv])
        simp [Lockstep, h0]
      · have h0 : s.estilo_borda = 1 := h2.mp hv
        simp [Lockstep, h0]
    · by_cases ha : gpio = BOTAO_A
      · subst ha
        rw [manipulador_a s eventos agora hg]
        exact h
      · rw [manipulador_outro s gpio eventos agora hj ha hg]
        exact h

/-- The lockstep relation is kept along any sequence of handler calls. -/
theorem lockstep_executar (cs : List Chamada) (s : Estado) (h : Lockstep s) :
    Lockstep (executar s cs) := by
  induction cs generalizing s with
  | nil => exact h
  | cons c cs ih =>
    rw [executar_cons]
    exact ih _ (lockstep_passo s c.gpio c.eventos c.agora h)

/-- Claim C10: in every state reached from power-on by any sequence of handler
calls (any pins, masks and timestamps), `estilo_borda` is 0 or 1,
`estado_led_verde` is true exactly when `estilo_borda = 1`, and the level last
written to the green channel is 4095 when `estado_led_verde` is true and 0
otherwise. -/
theorem green_border_lockstep (cs : List Chamada) :
    ((executar inicial cs).estilo_borda = 0 ∨ (executar inicial cs).estilo_borda = 1) ∧
    ((executar inicial cs).estado_led_verde = true ↔ (executar inicial cs).estilo_borda = 1) ∧
    (executar inicial cs).nivel_verde =
      (if (executar inicial cs).estado_led_verde then 4095 else 0) ∧
    ((executar inicial cs).nivel_verde = 4095 ↔ (executar inicial cs).estado_led_verde = true) := by
  have h0 : Lockstep inicial := by
    refine ⟨Or.inl rfl, ?_, rfl⟩
    decide
  obtain ⟨h1, h2, h3⟩ := lockstep_executar cs inicial h0
  refine ⟨h1, h2, h3, ?_⟩
  rw [h3]
  cases (executar inicial cs).estado_led_verde <;> simp

/-! ## Marker extent on the display -/

/-- For a 12-bit reading `x_pos` is the plain quotient. -/
theorem x_pos_eq (y_val : Nat) (hy : y_val ≤ 4095) : x_pos y_val = y_val * 112 / 4095 := by
  have hb : y_val * 112 / 4095 ≤ 112 := by omega
  unfold x_pos
  exact Nat.mod_eq_of_lt (by omega)

/-- For a 12-bit reading `y_pos` is the plain quotient. -/
theorem y_pos_eq (x_val : Nat) (hx : x_val ≤ 4095) : y_pos x_val = x_val * 56 / 4095 := by
  have hb : x_val * 56 / 4095 ≤ 56 := by omega
  unfold y_pos
  exact Nat.mod_eq_of_lt (by omega)

/-- Pixels set by the marker call: the 10x10 block at `(y_pos, x_pos)`. -/
theorem marcador_pixel (x_val y_val linha coluna : Nat) :
    ssd1306_rect (marcador x_val y_val) linha coluna = true ↔
      (y_pos x_val ≤ linha ∧ linha < y_pos x_val + 10 ∧
       x_pos y_val ≤ coluna ∧ coluna < x_pos y_val + 10) := by
  simp [ssd1306_rect, marcador]

/-- Counterexample to C6: at `x_raw = 4095` the marker starts at row 56 and
sets the pixel at row 65, outside rows 0..63; at `(x_raw, y_raw) = (0, 0)` the
marker sets the pixel at row 0, column 0, which is a border pixel. In both
cases the marker does not keep to the drawable interior. -/
theorem marker_interior_counterexample :
    y_pos 4095 = 56 ∧
    ssd1306_rect (marcador 4095 0) 65 0 = true ∧
    ¬ MarcadorNoInterior 0 4095 0 ∧
    ssd1306_rect (marcador 0 0) 0 0 = true ∧
    pixel_borda 0 0 0 = true ∧
    ¬ MarcadorNoInterior 0 0 0 := by
  refine ⟨by decide, by decide, ?_, by decide, by decide, ?_⟩
  · intro h
    have h1 := (h 65 0 (by decide)).1
    omega
  · intro h
    have h1 := (h 0 0 (by decide)).2.2
    exact absurd h1 (by decide)

/-- Claim C6, amended: for readings in [0, 4095] the marker's 10 columns stay
inside columns 0..127 (they end at column 121 at most); its 10 rows stay inside
rows 0..63 when `x_raw ≤ 4021` (that is `y_pos ≤ 54`); and the marker keeps to
the drawable interior, clear of the border of style `e` (0 or 1), when
`e + 1 ≤ x_pos`, `e + 1 ≤ y_pos` and `y_pos + e ≤ 52`. -/
theorem marker_extent_amended (estilo x_raw y_raw : Nat) (hx : x_raw ≤ 4095)
    (hy : y_raw ≤ 4095) :
    (∀ linha coluna : Nat, ssd1306_rect (marcador x_raw y_raw) linha coluna = true →
      coluna ≤ 121 ∧ coluna ≤ 127 ∧ (x_raw ≤ 4021 → linha ≤ 63)) ∧
    ((estilo = 0 ∨ estilo = 1) → estilo + 1 ≤ x_pos y_raw → estilo + 1 ≤ y_pos x_raw →
      y_pos x_raw + estilo ≤ 52 → MarcadorNoInterior estilo x_raw y_raw) := by
  have ex := x_pos_eq y_raw hy
  have ey := y_pos_eq x_raw hx
  have bx : x_pos y_raw ≤ 112 := by rw [ex]; omega
  constructor
  · intro linha coluna h
    rw [marcador_pixel] at h
    obtain ⟨_, h2, _, h4⟩ := h
    refine ⟨by omega, by omega, ?_⟩
    intro h5
    have : y_pos x_raw ≤ 54 := by rw [ey]; omega
    omega
  · intro he h1 h2 h3 linha coluna h
    rw [marcador_pixel] at h
    obtain ⟨g1, g2, g3, g4⟩ := h
    refine ⟨by omega, by omega, ?_⟩
    rcases he with he | he
    · subst he
      simp [pixel_borda, desenhar_borda, ssd1306_rect]
      omega
    · subst he
      simp [pixel_borda, desenhar_borda, ssd1306_rect]
      omega

/-- Witness of C6 (amended): centred joystick, `(x_raw, y_raw) = (2048, 2048)`,
simple border. -/
theorem marker_extent_amended_witness :
    (2048 ≤ 4095 ∧ x_pos 2048 = 56 ∧ y_pos 2048 = 28) ∧
    MarcadorNoInterior 0 2048 2048 :=
  ⟨by decide,
   (marker_extent_amended 0 2048 2048 (by decide) (by decide)).2 (Or.inl rfl)
     (by decide) (by decide) (by decide)⟩

end Ultimo
